import Mathlib

/-!
Shallow embedding of `src/packages/drawer/src/views/DrawerItem.tsx`.

The file models the two components of the source — the `LinkPressable`
pressable abstraction and the `DrawerItem` row component — as pure Lean
functions from props, theme and host platform to a rendered description.

Conventions of the embedding:
* Colors and theme tokens are opaque strings.
* The color-math collaborator (`Color(c).alpha(a).rgb().string()`) is an
  external utility, so it is passed in as an uninterpreted function
  `withAlpha : String → Rat → String`.
* React style arrays are modelled as lists of style records merged
  left-to-right (later entry wins per field), mirroring
  `StyleSheet.flatten`.  Absent style fields are `Option.none`, matching
  the `undefined`-triggered destructuring defaults of the source.
* Event handlers are modelled as functions from an event to the list of
  observable actions they perform; invoking the caller-supplied
  activation callback is the atomic action `callOnPress`, and
  `e.preventDefault()` is the atomic action `preventDefault`.
* JavaScript object-rest destructuring is modelled by key lists: the
  `rest` object of `LinkPressable` holds exactly the incoming keys minus
  the explicitly destructured ones, which is what the source's
  `'onPress' in rest` test consults.
-/

namespace DrawerItemSpec

/-- Opaque color token (theme colors, caller overrides). -/
abbrev ColorStr := String

/-- The subset of `ViewStyle` fields used by `DrawerItem.tsx`.  A `none`
field models an absent (`undefined`) property. -/
structure ViewStyleRec where
  borderRadius : Option Int := none
  backgroundColor : Option ColorStr := none
  marginLeft : Option Int := none
  marginRight : Option Int := none
  marginVertical : Option Int := none
  marginHorizontal : Option Int := none
  padding : Option Int := none
  flex : Option Int := none
  flexDirection : Option String := none
  alignItems : Option String := none
  overflow : Option String := none
  display : Option String := none
deriving Repr, DecidableEq

/-- Per-field merge of two style objects, the second (later) one winning
wherever it defines a field — the semantics of `StyleSheet.flatten` on a
two-element array. -/
def mergeView (a b : ViewStyleRec) : ViewStyleRec where
  borderRadius := b.borderRadius.orElse fun _ => a.borderRadius
  backgroundColor := b.backgroundColor.orElse fun _ => a.backgroundColor
  marginLeft := b.marginLeft.orElse fun _ => a.marginLeft
  marginRight := b.marginRight.orElse fun _ => a.marginRight
  marginVertical := b.marginVertical.orElse fun _ => a.marginVertical
  marginHorizontal := b.marginHorizontal.orElse fun _ => a.marginHorizontal
  padding := b.padding.orElse fun _ => a.padding
  flex := b.flex.orElse fun _ => a.flex
  flexDirection := b.flexDirection.orElse fun _ => a.flexDirection
  alignItems := b.alignItems.orElse fun _ => a.alignItems
  overflow := b.overflow.orElse fun _ => a.overflow
  display := b.display.orElse fun _ => a.display

/-- `StyleSheet.flatten` over a style array, later entries overriding. -/
def flattenView (xs : List ViewStyleRec) : ViewStyleRec :=
  xs.foldl mergeView {}

/-- The subset of `TextStyle` fields used here (the inline color entry,
the theme's `fonts.medium` token and the caller's `labelStyle`). -/
structure TextStyleRec where
  color : Option ColorStr := none
  fontFamily : Option String := none
  fontWeight : Option String := none
deriving Repr, DecidableEq

/-- Props the `<Text>` element for a string label receives. -/
structure TextNodeProps where
  numberOfLines : Option Nat
  allowFontScaling : Option Bool
  styleList : List TextStyleRec
deriving Repr, DecidableEq

/-- A rendered React node: `null`, a `<Text>` element, or an opaque node
produced by a caller-supplied render function. -/
inductive ReactNode where
  | null
  | text (props : TextNodeProps) (content : String)
  | custom (id : Nat)
deriving Repr, DecidableEq

/-- JavaScript truthiness of a rendered node, as consulted by
`iconNode ? 32 : 0` (only `null`/`undefined` nodes arise falsy here). -/
def ReactNode.truthy : ReactNode → Bool
  | .null => false
  | _ => true

/-- The theme tokens read by `DrawerItem` (`colors.primary`,
`colors.text`, `fonts.medium`). -/
structure Theme where
  primary : ColorStr
  text : ColorStr
  fontMedium : TextStyleRec
deriving Repr, DecidableEq

/-- The fields of a browser click event consulted by the interceptor.
`isMouseEvent` models `e instanceof MouseEvent`; `button = none` models
a `null`/`undefined` button field. -/
structure ClickEvent where
  isMouseEvent : Bool
  metaKey : Bool
  altKey : Bool
  ctrlKey : Bool
  shiftKey : Bool
  button : Option Nat
deriving Repr, DecidableEq

/-- An opaque native gesture-responder event; it carries no
modifier-key information. -/
structure GestureEvent where
  payload : Nat
deriving Repr, DecidableEq

/-- Observable actions a handler can perform. -/
inductive HandlerAction where
  | preventDefault
  | callOnPress
deriving Repr, DecidableEq

/-- The route prop: a name and an opaque params payload. -/
structure Route where
  name : String
  params : Option Nat
deriving Repr, DecidableEq

/-- `CommonActions.navigate(route.name, route.params)`. -/
structure NavigateAction where
  name : String
  params : Option Nat
deriving Repr, DecidableEq

/-- The child content `DrawerItem` places inside the pressable: the icon
node and the label wrapper (its style array and the label node). -/
structure ItemChildren where
  iconNode : ReactNode
  labelWrapperStyleList : List ViewStyleRec
  labelNode : ReactNode
deriving Repr, DecidableEq

/-- The keys `LinkPressable` destructures out of its props object; the
object-rest `rest` holds every incoming key except these. -/
def linkPressableDestructuredKeys : List String :=
  ["route", "href", "children", "style", "onPress", "onLongPress",
   "onPressIn", "onPressOut", "accessibilityRole", "accessibilityState"]

/-- The key set of the `rest` object produced by the destructuring. -/
def restKeys (propKeys : List String) : List String :=
  propKeys.filter fun k => decide (k ∉ linkPressableDestructuredKeys)

/-- Props of `LinkPressable`.  `propKeys` is the list of own enumerable
keys of the props object as passed by the caller (consulted by the
`in rest` test and the spreads); the `...Provided` flags record whether
the corresponding callback value is a function rather than
`undefined`/`null`. -/
structure LinkPressableProps where
  propKeys : List String
  route : Route
  href : Option String
  style : List ViewStyleRec
  onPressProvided : Bool
  onLongPressProvided : Bool
  onPressInProvided : Bool
  onPressOutProvided : Bool
  children : ItemChildren
deriving Repr, DecidableEq

/-- `e.metaKey || e.altKey || e.ctrlKey || e.shiftKey`. -/
def modifierKeyHeld (e : ClickEvent) : Bool :=
  e.metaKey || e.altKey || e.ctrlKey || e.shiftKey

/-- The click interceptor `LinkPressable` installs on the `Link` element
in web mode (lines 134-145 of the source):

    if (e instanceof MouseEvent &&
        !(e.metaKey || e.altKey || e.ctrlKey || e.shiftKey) &&
        (e.button == null || e.button === 0)) \x7b
      e.preventDefault();
      if ('onPress' in rest) \x7b onPress?.(e); \x7d
    \x7d
-/
def linkOnClick (p : LinkPressableProps) (e : ClickEvent) : List HandlerAction :=
  if e.isMouseEvent = true ∧ modifierKeyHeld e = false
      ∧ (e.button = none ∨ e.button = some 0) then
    HandlerAction.preventDefault ::
      (if "onPress" ∈ restKeys p.propKeys then
        (if p.onPressProvided = true then [HandlerAction.callOnPress] else [])
      else [])
  else []

/-- The rendered `<Link>` element of web mode. -/
structure LinkRendered where
  elementKeys : List String
  href : Option String
  action : NavigateAction
  style : List ViewStyleRec
  onClick : ClickEvent → List HandlerAction
  children : ItemChildren

/-- The rendered `<PlatformPressable>` of non-web mode, wrapping a
`<View style=style>` around the children. -/
structure PressableRendered where
  elementKeys : List String
  onPressHandler : GestureEvent → List HandlerAction
  innerViewStyle : List ViewStyleRec
  children : ItemChildren

/-- The two mutually exclusive render modes of `LinkPressable`. -/
inductive Surface where
  | link (r : LinkRendered)
  | pressable (r : PressableRendered)

/-- The `Platform.OS` values; `LinkPressable` branches on `OS = web`. -/
inductive PlatformOS where
  | web
  | ios
  | android
  | windows
  | macos
deriving Repr, DecidableEq

/-- Static styles from the `StyleSheet.create` block. -/
def stylesContainer : ViewStyleRec :=
  { marginHorizontal := some 10, marginVertical := some 4,
    overflow := some "hidden" }

/-- `styles.wrapper`. -/
def stylesWrapper : ViewStyleRec :=
  { flexDirection := some "row", alignItems := some "center",
    padding := some 8 }

/-- `styles.label`. -/
def stylesLabel : ViewStyleRec :=
  { marginRight := some 32, flex := some 1 }

/-- `styles.button`. -/
def stylesButton : ViewStyleRec :=
  { display := some "flex" }

/-- Render function of `LinkPressable` (lines 100-166): on web it emits
a `<Link>` with the spread `rest` props, the href, a navigate action,
the style array `[styles.button, style]` and the click interceptor;
otherwise a `<PlatformPressable>` whose `onPress` prop is the incoming
`onPress` callback itself. -/
def LinkPressable.render (os : PlatformOS) (p : LinkPressableProps) : Surface :=
  match os with
  | .web =>
    Surface.link
      { elementKeys := restKeys p.propKeys ++
          ["href", "action", "style", "onPress", "onLongPress",
           "onPressIn", "onPressOut"],
        href := p.href,
        action := { name := p.route.name, params := p.route.params },
        style := stylesButton :: p.style,
        onClick := linkOnClick p,
        children := p.children }
  | _ =>
    Surface.pressable
      { elementKeys := restKeys p.propKeys ++ ["accessibilityRole", "onPress"],
        onPressHandler := fun _ =>
          if p.onPressProvided = true then [HandlerAction.callOnPress] else [],
        innerViewStyle := p.style,
        children := p.children }

/-- Arguments `DrawerItem` passes to a caller icon render function. -/
structure IconArgs where
  focused : Bool
  size : Nat
  color : ColorStr

/-- Arguments `DrawerItem` passes to a caller label render function. -/
structure LabelArgs where
  focused : Bool
  color : ColorStr

/-- The `label` prop: a literal string or a render function. -/
inductive LabelProp where
  | str (s : String)
  | render (f : LabelArgs → ReactNode)

/-- Props of `DrawerItem`.  `none` models an absent optional prop; the
required `onPress` callback is implicit (its single invocation is the
`callOnPress` action). -/
structure DrawerItemProps where
  route : Route
  href : Option String := none
  label : LabelProp
  icon : Option (IconArgs → ReactNode) := none
  focused : Option Bool := none
  activeTintColor : Option ColorStr := none
  inactiveTintColor : Option ColorStr := none
  activeBackgroundColor : Option ColorStr := none
  inactiveBackgroundColor : Option ColorStr := none
  pressColor : Option ColorStr := none
  pressOpacity : Option Int := none
  labelStyle : Option TextStyleRec := none
  style : Option ViewStyleRec := none
  allowFontScaling : Option Bool := none
  accessibilityLabel : Option String := none
  testID : Option String := none

/-- The color values `DrawerItem` computes in its destructuring defaults
and its `focused` selection (lines 180-199). -/
structure ResolvedColors where
  activeTintColor : ColorStr
  inactiveTintColor : ColorStr
  activeBackgroundColor : ColorStr
  inactiveBackgroundColor : ColorStr
  color : ColorStr
  backgroundColor : ColorStr
deriving Repr, DecidableEq

/-- Default resolution and focused-selection of the four color props.
`withAlpha c a` stands for the external `Color(c).alpha(a).rgb().string()`. -/
def resolveColors (theme : Theme) (withAlpha : ColorStr → Rat → ColorStr)
    (p : DrawerItemProps) : ResolvedColors :=
  let focused := p.focused.getD false
  let activeTintColor := p.activeTintColor.getD theme.primary
  let inactiveTintColor :=
    p.inactiveTintColor.getD (withAlpha theme.text (68 / 100))
  let activeBackgroundColor :=
    p.activeBackgroundColor.getD (withAlpha activeTintColor (12 / 100))
  let inactiveBackgroundColor :=
    p.inactiveBackgroundColor.getD "transparent"
  { activeTintColor := activeTintColor,
    inactiveTintColor := inactiveTintColor,
    activeBackgroundColor := activeBackgroundColor,
    inactiveBackgroundColor := inactiveBackgroundColor,
    color := if focused then activeTintColor else inactiveTintColor,
    backgroundColor :=
      if focused then activeBackgroundColor else inactiveBackgroundColor }

/-- `const \x7b borderRadius = 4 \x7d = StyleSheet.flatten(style || \x7b\x7d)`. -/
def resolveBorderRadius (p : DrawerItemProps) : Int :=
  ((p.style.getD {}).borderRadius).getD 4

/-- The output of one `DrawerItem` render: the outer container's style
array and the `LinkPressable` surface. -/
structure RenderedItem where
  containerStyleList : List ViewStyleRec
  surface : Surface

/-- The JSX attribute keys `DrawerItem` supplies to `LinkPressable`
(lines 209-220, plus the `children` slot). -/
def drawerItemCallKeys : List String :=
  ["testID", "onPress", "style", "accessibilityLabel", "accessibilityRole",
   "accessibilityState", "pressColor", "pressOpacity", "route", "href",
   "children"]

/-- Render function of `DrawerItem` (lines 171-245). -/
def DrawerItem.render (os : PlatformOS) (theme : Theme)
    (withAlpha : ColorStr → Rat → ColorStr) (p : DrawerItemProps) :
    RenderedItem :=
  let rc := resolveColors theme withAlpha p
  let focused := p.focused.getD false
  let borderRadius := resolveBorderRadius p
  let iconNode : ReactNode :=
    match p.icon with
    | some f => f { focused := focused, size := 24, color := rc.color }
    | none => ReactNode.null
  let labelNode : ReactNode :=
    match p.label with
    | .str s =>
      ReactNode.text
        { numberOfLines := some 1,
          allowFontScaling := p.allowFontScaling,
          styleList :=
            [{ color := some rc.color }, theme.fontMedium]
              ++ p.labelStyle.toList } s
    | .render f => f { color := rc.color, focused := focused }
  let children : ItemChildren :=
    { iconNode := iconNode,
      labelWrapperStyleList :=
        [stylesLabel,
         { marginLeft := some (if iconNode.truthy then 32 else 0),
           marginVertical := some 5 }],
      labelNode := labelNode }
  { containerStyleList :=
      [stylesContainer,
       { borderRadius := some borderRadius,
         backgroundColor := some rc.backgroundColor }]
        ++ p.style.toList,
    surface :=
      LinkPressable.render os
        { propKeys := drawerItemCallKeys,
          route := p.route,
          href := p.href,
          style := [stylesWrapper, { borderRadius := some borderRadius }],
          onPressProvided := true,
          onLongPressProvided := false,
          onPressInProvided := false,
          onPressOutProvided := false,
          children := children } }

/-- The style array governing the pressable region: the `<Link>` style
on web, the inner `<View>` style otherwise. -/
def Surface.regionStyleList : Surface → List ViewStyleRec
  | .link r => r.style
  | .pressable r => r.innerViewStyle

/-- The child content carried by either surface. -/
def Surface.childrenOf : Surface → ItemChildren
  | .link r => r.children
  | .pressable r => r.children

/-- The prop keys the rendered interactive element receives. -/
def Surface.elementKeysOf : Surface → List String
  | .link r => r.elementKeys
  | .pressable r => r.elementKeys

/-- Empty child slot, for exercising `LinkPressable` on its own. -/
def emptyChildren : ItemChildren :=
  { iconNode := ReactNode.null, labelWrapperStyleList := [],
    labelNode := ReactNode.null }

/-- A `LinkPressable` props value as `DrawerItem` builds it: the call-site
key list and a provided `onPress` callback. -/
def sampleLinkProps : LinkPressableProps :=
  { propKeys := drawerItemCallKeys,
    route := { name := "home", params := none },
    href := some "/home",
    style := [],
    onPressProvided := true,
    onLongPressProvided := false,
    onPressInProvided := false,
    onPressOutProvided := false,
    children := emptyChildren }

/-- A genuine primary mouse click with no modifier keys. -/
def plainLeftClick : ClickEvent :=
  { isMouseEvent := true, metaKey := false, altKey := false,
    ctrlKey := false, shiftKey := false, button := some 0 }

/-- A primary mouse click with the shift key held. -/
def shiftClick : ClickEvent :=
  { isMouseEvent := true, metaKey := false, altKey := false,
    ctrlKey := false, shiftKey := true, button := some 0 }

/-- A mouse click whose `button` field is null/undefined. -/
def nullButtonClick : ClickEvent :=
  { isMouseEvent := true, metaKey := false, altKey := false,
    ctrlKey := false, shiftKey := false, button := none }

/-- A sample theme. -/
def sampleTheme : Theme :=
  { primary := "#0a84ff", text := "#000000",
    fontMedium := { fontWeight := some "500" } }

/-- A sample color-math collaborator. -/
def sampleWithAlpha : ColorStr → Rat → ColorStr :=
  fun c a => "alpha-" ++ toString a.num ++ "-" ++ c

/-- DrawerItem props with every optional prop absent. -/
def sampleDefaultProps : DrawerItemProps :=
  { route := { name := "home", params := none },
    label := LabelProp.str "Home" }

/-- DrawerItem props with an icon render function producing a node. -/
def sampleIconProps : DrawerItemProps :=
  { route := { name := "home", params := none },
    label := LabelProp.str "Home",
    icon := some fun _ => ReactNode.custom 7 }

/-- DrawerItem props whose label is a render function. -/
def sampleRenderLabelProps : DrawerItemProps :=
  { route := { name := "home", params := none },
    label := LabelProp.render fun a => ReactNode.custom (if a.focused then 1 else 2) }

/-- A key destructured by `LinkPressable` never survives into `rest`. -/
theorem notin_restKeys (k : String) (hk : k ∈ linkPressableDestructuredKeys)
    (ks : List String) : k ∉ restKeys ks := by
  intro hmem
  have hp := List.of_mem_filter hmem
  simp only [decide_eq_true_eq] at hp
  exact hp hk

/-- In particular the source's own test `'onPress' in rest` is false for
every incoming key list, because `onPress` itself is destructured. -/
theorem onPress_notin_restKeys (ks : List String) :
    "onPress" ∉ restKeys ks :=
  notin_restKeys "onPress" (by decide) ks

/-- C1: at a genuine primary mouse click with no modifier key, with the
props `DrawerItem` passes (an `onPress` key present and a provided
callback), the link-mode interceptor calls `preventDefault` but performs
no `onPress` invocation at all: the guard `onPress in rest` is always
false because `onPress` was destructured out of `rest`.  The claim says
the activation callback is invoked exactly once; the code never invokes
it. -/
theorem c1_plain_click_prevents_default_but_never_activates :
    linkOnClick sampleLinkProps plainLeftClick
      = [HandlerAction.preventDefault] := by
  decide

/-- C2: whenever a modifier key is held or the click is with a
non-primary button, the interceptor does nothing: neither
`preventDefault` nor the activation callback happens. -/
theorem c2_modifier_or_nonprimary_click_passthrough
    (p : LinkPressableProps) (e : ClickEvent)
    (h : modifierKeyHeld e = true ∨ ∃ b, e.button = some b ∧ b ≠ 0) :
    linkOnClick p e = [] := by
  rw [linkOnClick, if_neg]
  rintro ⟨-, hmod, hbtn⟩
  rcases h with h | ⟨b, hb, hb0⟩
  · rw [h] at hmod
    exact Bool.true_eq_false.mp hmod
  · rw [hb] at hbtn
    rcases hbtn with hbtn | hbtn
    · exact Option.some_ne_none b hbtn
    · exact hb0 (Option.some_injective _ hbtn)

/-- C2 witness: a shift-held primary click is passed through untouched. -/
theorem c2_witness : linkOnClick sampleLinkProps shiftClick = [] :=
  c2_modifier_or_nonprimary_click_passthrough sampleLinkProps shiftClick
    (Or.inl (by decide))

/-- C9: a mouse click whose `button` field is null/undefined is treated
exactly like a left click (`button = 0`): given no modifier key, the
handler behaves identically on both events and suppresses default
navigation. -/
theorem c9_null_button_click_treated_as_primary
    (p : LinkPressableProps) (e : ClickEvent)
    (hm : e.isMouseEvent = true) (hmod : modifierKeyHeld e = false)
    (hb : e.button = none) :
    linkOnClick p e = linkOnClick p { e with button := some 0 } ∧
    HandlerAction.preventDefault ∈ linkOnClick p e := by
  have h1 : linkOnClick p e
      = HandlerAction.preventDefault ::
        (if "onPress" ∈ restKeys p.propKeys then
          (if p.onPressProvided = true then [HandlerAction.callOnPress] else [])
        else []) := by
    rw [linkOnClick, if_pos ⟨hm, hmod, Or.inl hb⟩]
  have h2 : linkOnClick p { e with button := some 0 }
      = HandlerAction.preventDefault ::
        (if "onPress" ∈ restKeys p.propKeys then
          (if p.onPressProvided = true then [HandlerAction.callOnPress] else [])
        else []) := by
    rw [linkOnClick, if_pos ⟨hm, hmod, Or.inr rfl⟩]
  exact ⟨h1.trans h2.symm, h1 ▸ List.mem_cons_self _ _⟩

/-- C9 witness: the concrete null-button click is intercepted like the
concrete left click. -/
theorem c9_witness :
    linkOnClick sampleLinkProps nullButtonClick
      = linkOnClick sampleLinkProps { nullButtonClick with button := some 0 } ∧
    HandlerAction.preventDefault ∈ linkOnClick sampleLinkProps nullButtonClick :=
  c9_null_button_click_treated_as_primary sampleLinkProps nullButtonClick
    rfl rfl rfl

/-- C3: for every theme, every color-math collaborator and every
combination of the four color overrides, the rendered foreground color
is exactly the resolved active tint when `focused` and exactly the
resolved inactive tint otherwise, and likewise for the background: one
pair is selected whole, never blended. -/
theorem c3_focused_selects_exactly_one_pair (theme : Theme)
    (wA : ColorStr → Rat → ColorStr) (p : DrawerItemProps) :
    (resolveColors theme wA p).color =
      (if p.focused.getD false then (resolveColors theme wA p).activeTintColor
       else (resolveColors theme wA p).inactiveTintColor) ∧
    (resolveColors theme wA p).backgroundColor =
      (if p.focused.getD false then
        (resolveColors theme wA p).activeBackgroundColor
       else (resolveColors theme wA p).inactiveBackgroundColor) :=
  ⟨rfl, rfl⟩

/-- C4: each absent override resolves to its documented default:
`activeTintColor` to the theme primary, `inactiveTintColor` to the theme
text color at alpha 0.68, `activeBackgroundColor` to the resolved
(override-aware) active tint at alpha 0.12, and
`inactiveBackgroundColor` to transparent. -/
theorem c4_default_resolution (theme : Theme)
    (wA : ColorStr → Rat → ColorStr) (p : DrawerItemProps) :
    (p.activeTintColor = none →
      (resolveColors theme wA p).activeTintColor = theme.primary) ∧
    (p.inactiveTintColor = none →
      (resolveColors theme wA p).inactiveTintColor
        = wA theme.text (68 / 100)) ∧
    (p.activeBackgroundColor = none →
      (resolveColors theme wA p).activeBackgroundColor
        = wA (p.activeTintColor.getD theme.primary) (12 / 100)) ∧
    (p.inactiveBackgroundColor = none →
      (resolveColors theme wA p).inactiveBackgroundColor = "transparent") := by
  refine ⟨fun h => ?_, fun h => ?_, fun h => ?_, fun h => ?_⟩ <;>
    simp [resolveColors, h]

/-- C4 witness: with no overrides, the four defaults come out as stated,
including the override-aware derivation of the active background. -/
theorem c4_witness :
    (resolveColors sampleTheme sampleWithAlpha sampleDefaultProps).activeTintColor
      = sampleTheme.primary ∧
    (resolveColors sampleTheme sampleWithAlpha sampleDefaultProps).inactiveTintColor
      = sampleWithAlpha sampleTheme.text (68 / 100) ∧
    (resolveColors sampleTheme sampleWithAlpha sampleDefaultProps).activeBackgroundColor
      = sampleWithAlpha
          (sampleDefaultProps.activeTintColor.getD sampleTheme.primary) (12 / 100) ∧
    (resolveColors sampleTheme sampleWithAlpha sampleDefaultProps).inactiveBackgroundColor
      = "transparent" :=
  ⟨(c4_default_resolution sampleTheme sampleWithAlpha sampleDefaultProps).1 rfl,
   (c4_default_resolution sampleTheme sampleWithAlpha sampleDefaultProps).2.1 rfl,
   (c4_default_resolution sampleTheme sampleWithAlpha sampleDefaultProps).2.2.1 rfl,
   (c4_default_resolution sampleTheme sampleWithAlpha sampleDefaultProps).2.2.2 rfl⟩

/-- C5: on every non-web host, `LinkPressable` renders the gesture
surface with the provided activation callback as its direct press
handler, so any press event invokes it exactly once, with no
modifier-key condition. -/
theorem c5_gesture_press_activates_exactly_once (os : PlatformOS)
    (p : LinkPressableProps) (hos : os ≠ PlatformOS.web)
    (hp : p.onPressProvided = true) (e : GestureEvent) :
    ∃ r, LinkPressable.render os p = Surface.pressable r ∧
      r.onPressHandler e = [HandlerAction.callOnPress] := by
  cases os with
  | web => exact absurd rfl hos
  | ios => exact ⟨_, rfl, by simp [hp]⟩
  | android => exact ⟨_, rfl, by simp [hp]⟩
  | windows => exact ⟨_, rfl, by simp [hp]⟩
  | macos => exact ⟨_, rfl, by simp [hp]⟩

/-- C5 witness: on android with the call-site props, a concrete press
yields exactly one activation. -/
theorem c5_witness :
    ∃ r, LinkPressable.render PlatformOS.android sampleLinkProps
        = Surface.pressable r ∧
      r.onPressHandler { payload := 0 } = [HandlerAction.callOnPress] :=
  c5_gesture_press_activates_exactly_once PlatformOS.android sampleLinkProps
    (by decide) rfl { payload := 0 }

/-- C6: the corner radius is read from the caller style (defaulting to
4 when absent) and the flattened styles of the outer container and of
the inner pressable region both carry exactly that value, on every
platform. -/
theorem c6_border_radius_shared (os : PlatformOS) (theme : Theme)
    (wA : ColorStr → Rat → ColorStr) (p : DrawerItemProps) :
    resolveBorderRadius p = ((p.style.getD {}).borderRadius).getD 4 ∧
    (flattenView
      (DrawerItem.render os theme wA p).containerStyleList).borderRadius
      = some (resolveBorderRadius p) ∧
    (flattenView
      ((DrawerItem.render os theme wA p).surface.regionStyleList)).borderRadius
      = some (resolveBorderRadius p) := by
  refine ⟨rfl, ?_, ?_⟩
  · cases hs : p.style with
    | none =>
      simp [DrawerItem.render, flattenView, mergeView, stylesContainer, hs,
        Option.orElse]
    | some s =>
      cases hb : s.borderRadius with
      | none =>
        simp [DrawerItem.render, flattenView, mergeView, stylesContainer,
          resolveBorderRadius, hs, hb, Option.orElse]
      | some b =>
        simp [DrawerItem.render, flattenView, mergeView, stylesContainer,
          resolveBorderRadius, hs, hb, Option.orElse]
  · cases os <;>
      simp [DrawerItem.render, LinkPressable.render, Surface.regionStyleList,
        flattenView, mergeView, stylesWrapper, stylesButton, Option.orElse]

/-- C7: the label wrapper's left margin is 0 whenever the icon prop is
absent, and 32 whenever an icon render function is supplied and
produces a (truthy) node. -/
theorem c7_icon_margin (os : PlatformOS) (theme : Theme)
    (wA : ColorStr → Rat → ColorStr) (p : DrawerItemProps) :
    (p.icon = none →
      (flattenView
        ((DrawerItem.render os theme wA
            p).surface.childrenOf.labelWrapperStyleList)).marginLeft
        = some 0) ∧
    (∀ f, p.icon = some f →
      (f { focused := p.focused.getD false, size := 24,
           color := (resolveColors theme wA p).color }).truthy = true →
      (flattenView
        ((DrawerItem.render os theme wA
            p).surface.childrenOf.labelWrapperStyleList)).marginLeft
        = some 32) := by
  constructor
  · intro h
    cases os <;>
      simp [DrawerItem.render, LinkPressable.render, Surface.childrenOf, h,
        ReactNode.truthy, flattenView, mergeView, stylesLabel, Option.orElse]
  · intro f hf ht
    cases os <;>
      simp [DrawerItem.render, LinkPressable.render, Surface.childrenOf, hf,
        ht, flattenView, mergeView, stylesLabel, Option.orElse]

/-- C7 witness: no icon gives margin 0; a supplied icon render function
producing a node gives margin 32. -/
theorem c7_witness :
    (flattenView
      ((DrawerItem.render PlatformOS.web sampleTheme sampleWithAlpha
          sampleDefaultProps).surface.childrenOf.labelWrapperStyleList)).marginLeft
      = some 0 ∧
    (flattenView
      ((DrawerItem.render PlatformOS.web sampleTheme sampleWithAlpha
          sampleIconProps).surface.childrenOf.labelWrapperStyleList)).marginLeft
      = some 32 :=
  ⟨(c7_icon_margin PlatformOS.web sampleTheme sampleWithAlpha
      sampleDefaultProps).1 rfl,
   (c7_icon_margin PlatformOS.web sampleTheme sampleWithAlpha
      sampleIconProps).2 (fun _ => ReactNode.custom 7) rfl rfl⟩

/-- C8: a literal string label renders as a one-line text element
honoring the font-scaling flag, the resolved foreground color, the
theme's medium font token and the caller's label style; a render
function label is invoked with the color and focused flag and its
result placed verbatim. -/
theorem c8_label_rendering (os : PlatformOS) (theme : Theme)
    (wA : ColorStr → Rat → ColorStr) (p : DrawerItemProps) :
    (∀ s, p.label = LabelProp.str s →
      (DrawerItem.render os theme wA p).surface.childrenOf.labelNode
        = ReactNode.text
            { numberOfLines := some 1,
              allowFontScaling := p.allowFontScaling,
              styleList :=
                [{ color := some (resolveColors theme wA p).color },
                 theme.fontMedium] ++ p.labelStyle.toList } s) ∧
    (∀ f, p.label = LabelProp.render f →
      (DrawerItem.render os theme wA p).surface.childrenOf.labelNode
        = f { color := (resolveColors theme wA p).color,
              focused := p.focused.getD false }) := by
  constructor
  · intro s hs
    cases os <;>
      simp [DrawerItem.render, LinkPressable.render, Surface.childrenOf, hs]
  · intro f hf
    cases os <;>
      simp [DrawerItem.render, LinkPressable.render, Surface.childrenOf, hf]

/-- C8 witness: the concrete string label and the concrete render
function label come out as the claim states. -/
theorem c8_witness :
    (DrawerItem.render PlatformOS.android sampleTheme sampleWithAlpha
        sampleDefaultProps).surface.childrenOf.labelNode
      = ReactNode.text
          { numberOfLines := some 1,
            allowFontScaling := sampleDefaultProps.allowFontScaling,
            styleList :=
              [{ color := some (resolveColors sampleTheme sampleWithAlpha
                    sampleDefaultProps).color },
               sampleTheme.fontMedium]
                ++ sampleDefaultProps.labelStyle.toList } "Home" ∧
    (DrawerItem.render PlatformOS.android sampleTheme sampleWithAlpha
        sampleRenderLabelProps).surface.childrenOf.labelNode
      = (fun a : LabelArgs => ReactNode.custom (if a.focused then 1 else 2))
          { color := (resolveColors sampleTheme sampleWithAlpha
              sampleRenderLabelProps).color,
            focused := sampleRenderLabelProps.focused.getD false } :=
  ⟨(c8_label_rendering PlatformOS.android sampleTheme sampleWithAlpha
      sampleDefaultProps).1 "Home" rfl,
   (c8_label_rendering PlatformOS.android sampleTheme sampleWithAlpha
      sampleRenderLabelProps).2
     (fun a : LabelArgs => ReactNode.custom (if a.focused then 1 else 2)) rfl⟩

/-- C10: the selected accessibility state is destructured out and
discarded: in both render modes, and for every incoming key list, the
rendered interactive element receives no accessibilityState prop; in
particular the element `DrawerItem` renders never does. -/
theorem c10_accessibility_state_never_forwarded (os : PlatformOS)
    (p : LinkPressableProps) (theme : Theme)
    (wA : ColorStr → Rat → ColorStr) (q : DrawerItemProps) :
    "accessibilityState" ∉ (LinkPressable.render os p).elementKeysOf ∧
    "accessibilityState" ∉
      (DrawerItem.render os theme wA q).surface.elementKeysOf := by
  refine ⟨?_, ?_⟩
  · cases os <;>
      exact fun hmem => (List.mem_append.mp hmem).elim
        (fun h => notin_restKeys _ (by decide) p.propKeys h)
        (fun h => absurd h (by decide))
  · cases os <;>
      exact fun hmem => (List.mem_append.mp hmem).elim
        (fun h => notin_restKeys _ (by decide) drawerItemCallKeys h)
        (fun h => absurd h (by decide))

end DrawerItemSpec
